import Mathlib

/-!
Verification of `examples/QuickStart_Chatbot/chatbot.py`.

The script has three functions:
- `get_chat_response api_key user_input`: builds headers and a JSON payload,
  POSTs it to the Sarvam chat-completions endpoint, calls
  `raise_for_status`, parses the body as JSON and returns
  `json["choices"][0]["message"]["content"]`.
- `get_chat_response_azure user_input`: reads credentials from the
  environment, builds the same two-message payload and temperature, issues
  one SDK call and returns `response.choices[0].message.content`.
- `main`: prints a banner, reads one line, strips it, and if non-empty
  dispatches to one of the two functions, printing the reply or an error
  line.

The embedding is explicit about effects: HTTP transport is a function
argument, the issued requests are returned as a log (the Python code calls
`requests.post` / `client.chat.completions.create` exactly once per
invocation), and Python exceptions become an `Except` error taxonomy keyed
by which exception class the source raises at that site, because `main`
catches only `requests.exceptions.RequestException`.
-/

/-- JSON values, as produced by `response.json()` and written as the
request payload literal in the source. Numbers are modelled as exact
rationals; the only numeric literal in the program is `0.7`. -/
inductive Json where
  | null : Json
  | bool (b : Bool) : Json
  | num (q : Rat) : Json
  | str (s : String) : Json
  | arr (elems : List Json) : Json
  | obj (fields : List (String × Json)) : Json

/-- First-match lookup in a JSON object's field list (Python dict access
`d[key]`, returning `none` where Python raises `KeyError`, or where the
value is not a dict and Python raises `TypeError`). -/
def lookupField : List (String × Json) → String → Option Json
  | [], _ => none
  | (k, v) :: rest, key => if k = key then some v else lookupField rest key

/-- `j[key]` for a JSON value: succeeds only on objects holding the key. -/
def getField (j : Json) (key : String) : Option Json :=
  match j with
  | .obj fields => lookupField fields key
  | _ => none

/-- `j[0]` for a JSON value: succeeds only on non-empty arrays (Python
raises `IndexError` on an empty list). -/
def getIdx0 (j : Json) : Option Json :=
  match j with
  | .arr (x :: _) => some x
  | _ => none

/-- Error taxonomy for the embedded program, tagged by the Python
exception class raised at the corresponding site in the source. Only
`providerRequestError` corresponds to `requests.exceptions.RequestException`,
the sole class caught by `main`. -/
inductive ChatError where
  | configurationError (missingKey : String) : ChatError
  | providerRequestError (cause : String) : ChatError
  | providerResponseError (detail : String) : ChatError
  | azureSdkError (cause : String) : ChatError

/-- An outbound HTTP request as assembled by `get_chat_response`:
method, URL, header list, JSON body. -/
structure HttpRequest where
  method : String
  url : String
  headers : List (String × String)
  body : Json

/-- What the transport hands back for one request: either a transport
failure (a `requests` exception before any response exists) or a response
with a status code and a body. The body is `none` when it does not parse
as JSON (`response.json()` raises
`requests.exceptions.JSONDecodeError`, a `RequestException`). -/
inductive HttpResult where
  | transportError (cause : String) : HttpResult
  | response (status : Nat) (body : Option Json) : HttpResult

/-- The fixed system message of both request builders:
`{"role": "system", "content": "You are a helpful assistant."}`. -/
def systemMessage : Json :=
  Json.obj [("role", Json.str "system"),
            ("content", Json.str "You are a helpful assistant.")]

/-- The user message `{"role": "user", "content": user_input}`. -/
def userMessage (user_input : String) : Json :=
  Json.obj [("role", Json.str "user"), ("content", Json.str user_input)]

/-- The two-message conversation literal shared verbatim by both
functions in the source. -/
def chatMessages (user_input : String) : List Json :=
  [systemMessage, userMessage user_input]

/-- The request assembled by `get_chat_response` before `requests.post`:
headers `Authorization: Bearer <key>` and `Content-Type: application/json`,
body `{"model": "sarvam-m", "messages": [...], "temperature": 0.7}`,
POSTed to `https://api.sarvam.ai/v1/chat/completions`. -/
def mkDirectRequest (api_key user_input : String) : HttpRequest where
  method := "POST"
  url := "https://api.sarvam.ai/v1/chat/completions"
  headers := [("Authorization", "Bearer " ++ api_key),
              ("Content-Type", "application/json")]
  body := Json.obj [("model", Json.str "sarvam-m"),
                    ("messages", Json.arr (chatMessages user_input)),
                    ("temperature", Json.num (7 / 10))]

/-- `response.json()["choices"][0]["message"]["content"]` (line 31 of the
source): each failed dict/list access is a `KeyError` / `IndexError`,
which `main` does not catch; in the spec's taxonomy these are
response-shape errors. -/
def extractContent (j : Json) : Except ChatError Json :=
  match getField j "choices" with
  | none => .error (.providerResponseError "choices")
  | some choices =>
    match getIdx0 choices with
    | none => .error (.providerResponseError "choices[0]")
    | some choice0 =>
      match getField choice0 "message" with
      | none => .error (.providerResponseError "message")
      | some msg =>
        match getField msg "content" with
        | none => .error (.providerResponseError "content")
        | some content => .ok content

/-- Lines 29-31 of the source: `response.raise_for_status()` raises
`requests.exceptions.HTTPError` exactly for status codes 400-599, then
the body is parsed as JSON and the content field extracted. -/
def handleResult : HttpResult → Except ChatError Json
  | .transportError cause => .error (.providerRequestError cause)
  | .response status body =>
    if 400 ≤ status ∧ status < 600 then
      .error (.providerRequestError ("HTTP error " ++ toString status))
    else
      match body with
      | none => .error (.providerRequestError "invalid JSON body")
      | some j => extractContent j

/-- `get_chat_response(api_key, user_input)` with the HTTP transport made
explicit. It builds one request, performs exactly one `requests.post`
(the singleton request log), and unwraps the response. -/
def get_chat_response (api_key user_input : String)
    (transport : HttpRequest → HttpResult) :
    Except ChatError Json × List HttpRequest :=
  let req := mkDirectRequest api_key user_input
  (handleResult (transport req), [req])

/-- The Azure client configuration built on lines 46-50 of the source. -/
structure AzureConfig where
  api_key : String
  azure_endpoint : String
  api_version : String

/-- The single `client.chat.completions.create(...)` call of the Azure
path: client config, `model=deployment`, messages, temperature. -/
structure AzureChatCall where
  config : AzureConfig
  model : String
  messages : List Json
  temperature : Rat

/-- One message object of the Azure SDK's typed response; the SDK types
`content` as optional. -/
structure AzureMessage where
  content : Option String

/-- One choice of the Azure SDK's typed response. -/
structure AzureChoice where
  message : AzureMessage

/-- The Azure SDK's typed chat-completions response. -/
structure AzureResponse where
  choices : List AzureChoice

/-- Lines 46-51 of the source: the credential lookups, in evaluation
order. `os.environ[k]` raises `KeyError` when `k` is absent (a
configuration error in the spec's taxonomy);
`os.environ.get("AZURE_OPENAI_API_VERSION", "2024-12-01-preview")`
substitutes the default. On success it yields the SDK call of lines
53-60. -/
def mkAzureCall (env : String → Option String) (user_input : String) :
    Except ChatError AzureChatCall :=
  match env "AZURE_OPENAI_API_KEY" with
  | none => .error (.configurationError "AZURE_OPENAI_API_KEY")
  | some key =>
    match env "AZURE_OPENAI_ENDPOINT" with
    | none => .error (.configurationError "AZURE_OPENAI_ENDPOINT")
    | some endpoint =>
      let version := (env "AZURE_OPENAI_API_VERSION").getD "2024-12-01-preview"
      match env "AZURE_OPENAI_DEPLOYMENT" with
      | none => .error (.configurationError "AZURE_OPENAI_DEPLOYMENT")
      | some deployment =>
        .ok ⟨⟨key, endpoint, version⟩, deployment,
             chatMessages user_input, 7 / 10⟩

/-- Line 61 of the source, `response.choices[0].message.content`, applied
to the SDK call's outcome: an SDK exception propagates (it is not a
`requests.exceptions.RequestException`), and `choices[0]` on an empty
list raises `IndexError`. -/
def azureHandle : Except String AzureResponse → Except ChatError (Option String)
  | .error cause => .error (.azureSdkError cause)
  | .ok resp =>
    match resp.choices with
    | [] => .error (.providerResponseError "choices[0]")
    | choice0 :: _ => .ok choice0.message.content

/-- `get_chat_response_azure(user_input)` with environment and SDK
transport explicit. The call log records the SDK invocations: none when a
credential lookup raises, exactly one otherwise. -/
def get_chat_response_azure (env : String → Option String)
    (user_input : String)
    (transport : AzureChatCall → Except String AzureResponse) :
    Except ChatError (Option String) × List AzureChatCall :=
  match mkAzureCall env user_input with
  | .error e => (.error e, [])
  | .ok call => (azureHandle (transport call), [call])

/-- Python `str.isspace()` for the characters `str.strip()` removes,
restricted to the ASCII whitespace class (space, tab, newline, carriage
return, vertical tab, form feed); Python additionally strips some Unicode
space separators, which play no role in the claims. -/
def pyIsSpace (c : Char) : Bool :=
  c == ' ' || c == '\t' || c == '\n' || c == '\r' ||
  c == '\x0b' || c == '\x0c'

/-- Python `s.strip()`: drop leading and trailing whitespace. -/
def pyStrip (s : String) : String :=
  String.mk (((s.toList.dropWhile pyIsSpace).reverse.dropWhile pyIsSpace).reverse)

/-- Python `str(x)` as used by `print(f"Bot: {bot_response}")`; the reply
is a string in every well-formed response, the composite cases are
abstracted. -/
def pyStr : Json → String
  | .str s => s
  | .null => "None"
  | .bool true => "True"
  | .bool false => "False"
  | .num q => toString q
  | .arr _ => "<list>"
  | .obj _ => "<dict>"

/-- Python `str(x)` for the Azure reply, whose SDK type is `Optional[str]`. -/
def pyStrOpt : Option String → String
  | none => "None"
  | some s => s

/-- The banner printed on line 81 of the source. -/
def initLine : String := "Chatbot initialized. Enter your question."

/-- How one run of `main` terminates: cleanly, via `parser.error` (which
exits non-zero), or with an exception the `except` clause does not catch. -/
inductive ExitStatus where
  | normal : ExitStatus
  | usageError (msg : String) : ExitStatus
  | uncaught (e : ChatError) : ExitStatus

/-- Observable outcome of one run of `main`: the `print`ed lines, the
HTTP requests issued on the direct path, the SDK calls issued on the
Azure path, and how the run ended. -/
structure MainResult where
  lines : List String
  requests : List HttpRequest
  azureCalls : List AzureChatCall
  exit : ExitStatus

/-- `main()` of the source, lines 65-97 (the Lean name `main` is
reserved, hence `mainRun`), with the CLI arguments, the environment, the
typed input line and both transports made explicit.
`input(...).strip()` strips the line; `if user_input:` skips everything
on an empty result; `if not args.api_key:` (true for a missing or empty
`--api-key`) calls `parser.error`; the `except` clause catches exactly
`requests.exceptions.RequestException` and prints
`An error occurred: <e>`. -/
def mainRun (use_azure : Bool) (api_key : Option String)
    (env : String → Option String) (rawInput : String)
    (transport : HttpRequest → HttpResult)
    (azureTransport : AzureChatCall → Except String AzureResponse) :
    MainResult :=
  let user_input := pyStrip rawInput
  if user_input = "" then
    ⟨[initLine], [], [], .normal⟩
  else if use_azure then
    let result := get_chat_response_azure env user_input azureTransport
    match result.fst with
    | .ok reply =>
      ⟨[initLine, "Bot: " ++ pyStrOpt reply], [], result.snd, .normal⟩
    | .error (.providerRequestError cause) =>
      ⟨[initLine, "An error occurred: " ++ cause], [], result.snd, .normal⟩
    | .error e => ⟨[initLine], [], result.snd, .uncaught e⟩
  else
    match api_key with
    | none =>
      ⟨[initLine], [], [],
       .usageError "--api-key is required when not using --use-azure"⟩
    | some key =>
      if key = "" then
        ⟨[initLine], [], [],
         .usageError "--api-key is required when not using --use-azure"⟩
      else
        let result := get_chat_response key user_input transport
        match result.fst with
        | .ok reply =>
          ⟨[initLine, "Bot: " ++ pyStr reply], result.snd, [], .normal⟩
        | .error (.providerRequestError cause) =>
          ⟨[initLine, "An error occurred: " ++ cause], result.snd, [], .normal⟩
        | .error e => ⟨[initLine], result.snd, [], .uncaught e⟩

/-! ## Shared helper lemmas and concrete fixtures -/

/-- Whatever call `mkAzureCall` produces carries the two-message
conversation, the fixed temperature, and the API version resolved from
the environment with its default. -/
theorem mkAzureCall_ok_spec (env : String → Option String)
    (user_input : String) (call : AzureChatCall)
    (hc : mkAzureCall env user_input = .ok call) :
    call.messages = chatMessages user_input
    ∧ call.temperature = 7 / 10
    ∧ call.config.api_version
        = (env "AZURE_OPENAI_API_VERSION").getD "2024-12-01-preview" := by
  unfold mkAzureCall at hc
  cases h1 : env "AZURE_OPENAI_API_KEY" with
  | none => rw [h1] at hc; exact absurd hc (by simp)
  | some key =>
    rw [h1] at hc
    cases h2 : env "AZURE_OPENAI_ENDPOINT" with
    | none => rw [h2] at hc; exact absurd hc (by simp)
    | some endpoint =>
      rw [h2] at hc
      cases h3 : env "AZURE_OPENAI_DEPLOYMENT" with
      | none => rw [h3] at hc; exact absurd hc (by simp)
      | some deployment =>
        rw [h3] at hc
        simp only [Except.ok.injEq] at hc
        rw [← hc]
        exact ⟨rfl, rfl, rfl⟩

/-- Every SDK call logged by `get_chat_response_azure` is the one
`mkAzureCall` built. -/
theorem mem_azure_log (env : String → Option String) (user_input : String)
    (transport : AzureChatCall → Except String AzureResponse)
    (call : AzureChatCall)
    (h : call ∈ (get_chat_response_azure env user_input transport).snd) :
    mkAzureCall env user_input = .ok call := by
  unfold get_chat_response_azure at h
  cases hm : mkAzureCall env user_input with
  | error e => rw [hm] at h; simp at h
  | ok c =>
    rw [hm] at h
    simp only [List.mem_singleton] at h
    rw [h]

/-- A full Azure environment used by concrete instantiations. -/
def envFull : String → Option String := fun key =>
  if key = "AZURE_OPENAI_API_KEY" then some "ak"
  else if key = "AZURE_OPENAI_ENDPOINT" then some "https://example.azure.com"
  else if key = "AZURE_OPENAI_DEPLOYMENT" then some "dep"
  else none

/-- The call `mkAzureCall envFull "hi"` builds. -/
def azureCallFull : AzureChatCall :=
  ⟨⟨"ak", "https://example.azure.com", "2024-12-01-preview"⟩, "dep",
   chatMessages "hi", 7 / 10⟩

/-- An SDK transport returning an empty-choices response. -/
def azureTransport0 : AzureChatCall → Except String AzureResponse :=
  fun _ => .ok ⟨[]⟩

/-- A transport answering every request with status 200 and no JSON body. -/
def transport200 : HttpRequest → HttpResult :=
  fun _ => HttpResult.response 200 none

/-! ## Claims -/

/-- C1: for every non-empty `userMessage`, in both the Direct and
AzureHosted paths, the constructed request body's `messages` array has
exactly two entries: the first with role "system" and content "You are a
helpful assistant.", the second with role "user" and content equal to
`userMessage`. -/
theorem messages_are_system_then_user (api_key user_input : String)
    (env : String → Option String) (call : AzureChatCall)
    (hu : user_input ≠ "")
    (hc : mkAzureCall env user_input = .ok call) :
    getField (mkDirectRequest api_key user_input).body "messages"
      = some (Json.arr [systemMessage, userMessage user_input])
    ∧ call.messages = [systemMessage, userMessage user_input] :=
  ⟨rfl, (mkAzureCall_ok_spec env user_input call hc).1⟩

/-- Witness for C1 at `userMessage = "hi"`. -/
theorem messages_are_system_then_user_witness :
    getField (mkDirectRequest "k" "hi").body "messages"
      = some (Json.arr [systemMessage, userMessage "hi"])
    ∧ azureCallFull.messages = [systemMessage, userMessage "hi"] :=
  messages_are_system_then_user "k" "hi" envFull azureCallFull
    (by decide) rfl

/-- C6: for every input, the `temperature` field in every constructed
request body equals 0.7, in both the Direct and AzureHosted paths. -/
theorem temperature_always_fixed (api_key user_input : String)
    (env : String → Option String) (call : AzureChatCall)
    (hc : mkAzureCall env user_input = .ok call) :
    getField (mkDirectRequest api_key user_input).body "temperature"
      = some (Json.num (7 / 10))
    ∧ call.temperature = 7 / 10 :=
  ⟨rfl, (mkAzureCall_ok_spec env user_input call hc).2.1⟩

/-- Witness for C6 at a concrete key, message and environment. -/
theorem temperature_always_fixed_witness :
    getField (mkDirectRequest "k" "hi").body "temperature"
      = some (Json.num (7 / 10))
    ∧ azureCallFull.temperature = 7 / 10 :=
  temperature_always_fixed "k" "hi" envFull azureCallFull rfl

/-- C8: the API version of the Azure client is the value of
`AZURE_OPENAI_API_VERSION` when that variable is set, and the fixed
default "2024-12-01-preview" when it is absent. -/
theorem azure_api_version_default (env : String → Option String)
    (user_input : String) (call : AzureChatCall)
    (hc : mkAzureCall env user_input = .ok call) :
    call.config.api_version
      = (env "AZURE_OPENAI_API_VERSION").getD "2024-12-01-preview" :=
  (mkAzureCall_ok_spec env user_input call hc).2.2

/-- Witness for C8: `envFull` has no `AZURE_OPENAI_API_VERSION`, so the
resolved version is the default. -/
theorem azure_api_version_default_witness :
    azureCallFull.config.api_version
      = (envFull "AZURE_OPENAI_API_VERSION").getD "2024-12-01-preview" :=
  azure_api_version_default envFull "hi" azureCallFull rfl

/-- C4: with the AzureHosted provider, if any of the required credential
variables (API key, endpoint, deployment) is absent, the call fails with
a `ConfigurationError` and the SDK call log is empty: zero network calls. -/
theorem azure_missing_credential (env : String → Option String)
    (user_input : String)
    (transport : AzureChatCall → Except String AzureResponse)
    (h : env "AZURE_OPENAI_API_KEY" = none
         ∨ env "AZURE_OPENAI_ENDPOINT" = none
         ∨ env "AZURE_OPENAI_DEPLOYMENT" = none) :
    ∃ missing, get_chat_response_azure env user_input transport
      = (.error (.configurationError missing), []) := by
  cases h1 : env "AZURE_OPENAI_API_KEY" with
  | none =>
    exact ⟨"AZURE_OPENAI_API_KEY",
      by simp [get_chat_response_azure, mkAzureCall, h1]⟩
  | some key =>
    cases h2 : env "AZURE_OPENAI_ENDPOINT" with
    | none =>
      exact ⟨"AZURE_OPENAI_ENDPOINT",
        by simp [get_chat_response_azure, mkAzureCall, h1, h2]⟩
    | some endpoint =>
      cases h3 : env "AZURE_OPENAI_DEPLOYMENT" with
      | none =>
        exact ⟨"AZURE_OPENAI_DEPLOYMENT",
          by simp [get_chat_response_azure, mkAzureCall, h1, h2, h3]⟩
      | some deployment =>
        rcases h with h | h | h
        · rw [h] at h1; exact Option.noConfusion h1
        · rw [h] at h2; exact Option.noConfusion h2
        · rw [h] at h3; exact Option.noConfusion h3

/-- Witness for C4: an environment holding endpoint and deployment but
no API key. -/
def envNoKey : String → Option String := fun key =>
  if key = "AZURE_OPENAI_ENDPOINT" then some "https://example.azure.com"
  else if key = "AZURE_OPENAI_DEPLOYMENT" then some "dep"
  else none

/-- Witness for C4 at `envNoKey`. -/
theorem azure_missing_credential_witness :
    ∃ missing, get_chat_response_azure envNoKey "hi" azureTransport0
      = (.error (.configurationError missing), []) :=
  azure_missing_credential envNoKey "hi" azureTransport0 (Or.inl rfl)

/-- C7: every request issued on the Direct path is a POST to
`https://api.sarvam.ai/v1/chat/completions` with headers
`Authorization: Bearer <api-key>` and `Content-Type: application/json`,
and a body whose `model` field is "sarvam-m". -/
theorem direct_wire_contract (api_key user_input : String)
    (transport : HttpRequest → HttpResult) (req : HttpRequest)
    (h : req ∈ (get_chat_response api_key user_input transport).snd) :
    req.method = "POST"
    ∧ req.url = "https://api.sarvam.ai/v1/chat/completions"
    ∧ req.headers = [("Authorization", "Bearer " ++ api_key),
                     ("Content-Type", "application/json")]
    ∧ getField req.body "model" = some (Json.str "sarvam-m") := by
  have hr : req = mkDirectRequest api_key user_input := by
    simpa [get_chat_response] using h
  rw [hr]
  exact ⟨rfl, rfl, rfl, rfl⟩

/-- Witness for C7: the request issued for key "k" and message "hi". -/
theorem direct_wire_contract_witness :
    (mkDirectRequest "k" "hi").method = "POST"
    ∧ (mkDirectRequest "k" "hi").url
        = "https://api.sarvam.ai/v1/chat/completions"
    ∧ (mkDirectRequest "k" "hi").headers
        = [("Authorization", "Bearer " ++ "k"),
           ("Content-Type", "application/json")]
    ∧ getField (mkDirectRequest "k" "hi").body "model"
        = some (Json.str "sarvam-m") :=
  direct_wire_contract "k" "hi" transport200 (mkDirectRequest "k" "hi")
    (by simp [get_chat_response])

/-- C2: on a successful response whose body holds a content value at
`choices[0].message.content`, the Direct path returns exactly that value
as the reply. -/
theorem success_extracts_content (api_key user_input : String)
    (status : Nat) (j choice0 msg reply : Json) (choicesRest : List Json)
    (transport : HttpRequest → HttpResult)
    (hs : ¬(400 ≤ status ∧ status < 600))
    (ht : transport (mkDirectRequest api_key user_input)
            = .response status (some j))
    (hchoices : getField j "choices"
            = some (Json.arr (choice0 :: choicesRest)))
    (hmsg : getField choice0 "message" = some msg)
    (hcontent : getField msg "content" = some reply) :
    (get_chat_response api_key user_input transport).fst = .ok reply := by
  simp [get_chat_response, handleResult, ht, hs, extractContent,
        hchoices, getIdx0, hmsg, hcontent]

/-- The response body of the spec's mocked-endpoint scenario:
`{"choices":[{"message":{"content":"hello"}}]}`. -/
def mockHelloBody : Json :=
  Json.obj [("choices", Json.arr
    [Json.obj [("message", Json.obj [("content", Json.str "hello")])]])]

/-- A transport answering every request with status 200 and the mocked
"hello" body. -/
def transportHello : HttpRequest → HttpResult :=
  fun _ => HttpResult.response 200 (some mockHelloBody)

/-- Witness for C2: the spec's scenario, `complete(Direct, {apiKey:"k"},
"hi")` against the mocked endpoint returns the reply "hello". -/
theorem success_extracts_content_witness :
    (get_chat_response "k" "hi" transportHello).fst
      = .ok (Json.str "hello") :=
  success_extracts_content "k" "hi" 200 mockHelloBody
    (Json.obj [("message", Json.obj [("content", Json.str "hello")])])
    (Json.obj [("content", Json.str "hello")])
    (Json.str "hello") [] transportHello
    (by decide) rfl rfl rfl rfl

/-- C3: a structurally valid JSON response on which the
`choices[0].message.content` extraction fails (an empty `choices` array,
or any missing expected field) makes the Direct path fail, and every such
failure is a `providerResponseError`. -/
theorem empty_choices_response_error (api_key user_input : String)
    (status : Nat) (j : Json) (e : ChatError)
    (transport : HttpRequest → HttpResult)
    (hs : ¬(400 ≤ status ∧ status < 600))
    (ht : transport (mkDirectRequest api_key user_input)
            = .response status (some j))
    (he : extractContent j = .error e) :
    (get_chat_response api_key user_input transport).fst = .error e
    ∧ ∃ detail, e = .providerResponseError detail := by
  refine ⟨by simp [get_chat_response, handleResult, ht, hs, he], ?_⟩
  unfold extractContent at he
  repeat' split at he
  all_goals first
    | exact Except.noConfusion he
    | exact ⟨_, (Except.error.inj he).symm⟩

/-- The mocked body with an empty `choices` array. -/
def emptyChoicesBody : Json := Json.obj [("choices", Json.arr [])]

/-- A transport answering every request with status 200 and the
empty-choices body. -/
def transportEmptyChoices : HttpRequest → HttpResult :=
  fun _ => HttpResult.response 200 (some emptyChoicesBody)

/-- Witness for C3: the spec's empty-choices scenario. -/
theorem empty_choices_response_error_witness :
    (get_chat_response "k" "hi" transportEmptyChoices).fst
      = .error (.providerResponseError "choices[0]")
    ∧ ∃ detail, ChatError.providerResponseError "choices[0]"
        = .providerResponseError detail :=
  empty_choices_response_error "k" "hi" 200 emptyChoicesBody
    (.providerResponseError "choices[0]") transportEmptyChoices
    (by decide) rfl rfl

/-- A transport answering every request with status 304 (a non-2xx, non-4xx/5xx
final status, e.g. a Not Modified answer) and the mocked "hello" body. -/
def transport304 : HttpRequest → HttpResult :=
  fun _ => HttpResult.response 304 (some mockHelloBody)

/-- C5 counterexample: a final HTTP status of 304 is not 2xx, yet the
Direct path succeeds with the reply instead of failing with a
`ProviderRequestError`: `raise_for_status` raises only for statuses
400-599. -/
theorem non2xx_can_still_succeed :
    (get_chat_response "k" "hi" transport304).fst
      = .ok (Json.str "hello") := rfl

/-- A transport failing with a transport-level error "boom". -/
def transportBoom : HttpRequest → HttpResult :=
  fun _ => HttpResult.transportError "boom"

/-- A transport answering every request with HTTP status 500. -/
def transport500 : HttpRequest → HttpResult :=
  fun _ => HttpResult.response 500 none

/-- C5 (amended): on a network/transport failure or an HTTP status in
400-599 (e.g. HTTP 500) from the Direct endpoint, the call fails with a
`ProviderRequestError` carrying the underlying cause, exactly one request
is issued (no retry), and the CLI layer surfaces the transport failure as
the single line `An error occurred: <message>`. -/
theorem request_error_surfaced (api_key user_input rawInput cause : String)
    (status : Nat) (body : Option Json)
    (env : String → Option String)
    (tFail tHttp : HttpRequest → HttpResult)
    (azureTransport : AzureChatCall → Except String AzureResponse)
    (hu : pyStrip rawInput ≠ "") (hk : api_key ≠ "")
    (htFail : tFail (mkDirectRequest api_key (pyStrip rawInput))
                = .transportError cause)
    (htHttp : tHttp (mkDirectRequest api_key user_input)
                = .response status body)
    (hs : 400 ≤ status ∧ status < 600) :
    (get_chat_response api_key (pyStrip rawInput) tFail).fst
      = .error (.providerRequestError cause)
    ∧ (get_chat_response api_key user_input tHttp).fst
      = .error (.providerRequestError ("HTTP error " ++ toString status))
    ∧ (get_chat_response api_key (pyStrip rawInput) tFail).snd.length = 1
    ∧ mainRun false (some api_key) env rawInput tFail azureTransport
      = ⟨[initLine, "An error occurred: " ++ cause],
         [mkDirectRequest api_key (pyStrip rawInput)], [], .normal⟩ := by
  refine ⟨?_, ?_, ?_, ?_⟩
  · simp [get_chat_response, handleResult, htFail]
  · simp [get_chat_response, handleResult, htHttp, hs]
  · rfl
  · simp [mainRun, hu, hk, get_chat_response, handleResult, htFail]

/-- Witness for C5 (amended) at concrete inputs: raw line `"  hi "`,
key "k", transport failure "boom" and HTTP status 500. -/
theorem request_error_surfaced_witness :
    (get_chat_response "k" (pyStrip "  hi ") transportBoom).fst
      = .error (.providerRequestError "boom")
    ∧ (get_chat_response "k" "hi" transport500).fst
      = .error (.providerRequestError ("HTTP error " ++ toString 500))
    ∧ (get_chat_response "k" (pyStrip "  hi ") transportBoom).snd.length = 1
    ∧ mainRun false (some "k") envFull "  hi " transportBoom azureTransport0
      = ⟨[initLine, "An error occurred: " ++ "boom"],
         [mkDirectRequest "k" (pyStrip "  hi ")], [], .normal⟩ :=
  request_error_surfaced "k" "hi" "  hi " "boom" 500 none envFull
    transportBoom transport500 azureTransport0
    (by decide) (by decide) rfl rfl (by decide)

/-- Every request logged by `get_chat_response` is the single request it
builds. -/
theorem mem_direct_log (api_key user_input : String)
    (transport : HttpRequest → HttpResult) (req : HttpRequest)
    (h : req ∈ (get_chat_response api_key user_input transport).snd) :
    req = mkDirectRequest api_key user_input := by
  simpa [get_chat_response] using h

/-- `p` is a leading segment of `s`, computed on the character lists
(`String.startsWith` does not reduce in the kernel). -/
def strHasPre (p s : String) : Bool :=
  s.toList.take p.toList.length == p.toList

/-- C9: when the typed line is empty after stripping, `main` issues no
request to either provider and prints no `Bot:` line; only the banner is
printed. -/
theorem empty_input_sends_nothing (use_azure : Bool)
    (api_key : Option String) (env : String → Option String)
    (rawInput : String) (transport : HttpRequest → HttpResult)
    (azureTransport : AzureChatCall → Except String AzureResponse)
    (h : pyStrip rawInput = "") :
    (mainRun use_azure api_key env rawInput transport
        azureTransport).requests = []
    ∧ (mainRun use_azure api_key env rawInput transport
        azureTransport).azureCalls = []
    ∧ (mainRun use_azure api_key env rawInput transport
        azureTransport).lines = [initLine]
    ∧ ∀ line ∈ (mainRun use_azure api_key env rawInput transport
        azureTransport).lines, strHasPre "Bot: " line = false := by
  have hm : mainRun use_azure api_key env rawInput transport azureTransport
      = ⟨[initLine], [], [], .normal⟩ := by
    simp [mainRun, h]
  rw [hm]
  refine ⟨rfl, rfl, rfl, ?_⟩
  intro line hl
  simp only [List.mem_singleton] at hl
  rw [hl]
  decide

/-- Witness for C9 at the all-whitespace line `"   "`. -/
theorem empty_input_sends_nothing_witness :
    (mainRun false none envFull "   " transport200
        azureTransport0).requests = []
    ∧ (mainRun false none envFull "   " transport200
        azureTransport0).azureCalls = []
    ∧ (mainRun false none envFull "   " transport200
        azureTransport0).lines = [initLine]
    ∧ ∀ line ∈ (mainRun false none envFull "   " transport200
        azureTransport0).lines, strHasPre "Bot: " line = false :=
  empty_input_sends_nothing false none envFull "   " transport200
    azureTransport0 (by decide)

/-- Every HTTP request `main` issues is the Direct request built from
the stripped input line. -/
theorem mainRun_request_shape (use_azure : Bool) (api_key : Option String)
    (env : String → Option String) (rawInput : String)
    (transport : HttpRequest → HttpResult)
    (azureTransport : AzureChatCall → Except String AzureResponse)
    (req : HttpRequest)
    (h : req ∈ (mainRun use_azure api_key env rawInput transport
        azureTransport).requests) :
    ∃ key, req = mkDirectRequest key (pyStrip rawInput) := by
  simp only [mainRun] at h
  split at h
  · exact absurd h (List.not_mem_nil req)
  · split at h
    · split at h
      · exact absurd h (List.not_mem_nil req)
      · exact absurd h (List.not_mem_nil req)
      · exact absurd h (List.not_mem_nil req)
    · split at h
      · exact absurd h (List.not_mem_nil req)
      · rename_i key
        split at h
        · exact absurd h (List.not_mem_nil req)
        · split at h
          · exact ⟨key, mem_direct_log key (pyStrip rawInput) transport req h⟩
          · exact ⟨key, mem_direct_log key (pyStrip rawInput) transport req h⟩
          · exact ⟨key, mem_direct_log key (pyStrip rawInput) transport req h⟩

/-- Every SDK call `main` issues was built by `mkAzureCall` from the
stripped input line. -/
theorem mainRun_azure_shape (use_azure : Bool) (api_key : Option String)
    (env : String → Option String) (rawInput : String)
    (transport : HttpRequest → HttpResult)
    (azureTransport : AzureChatCall → Except String AzureResponse)
    (call : AzureChatCall)
    (h : call ∈ (mainRun use_azure api_key env rawInput transport
        azureTransport).azureCalls) :
    mkAzureCall env (pyStrip rawInput) = .ok call := by
  simp only [mainRun] at h
  split at h
  · exact absurd h (List.not_mem_nil call)
  · split at h
    · split at h
      · exact mem_azure_log env (pyStrip rawInput) azureTransport call h
      · exact mem_azure_log env (pyStrip rawInput) azureTransport call h
      · exact mem_azure_log env (pyStrip rawInput) azureTransport call h
    · split at h
      · exact absurd h (List.not_mem_nil call)
      · split at h
        · exact absurd h (List.not_mem_nil call)
        · split at h
          · exact absurd h (List.not_mem_nil call)
          · exact absurd h (List.not_mem_nil call)
          · exact absurd h (List.not_mem_nil call)

/-- C10: the user message actually transmitted is the typed line with
leading and trailing whitespace stripped: every request `main` issues, on
either path, carries the conversation built from `pyStrip rawInput`. -/
theorem sent_message_is_stripped (use_azure : Bool)
    (api_key : Option String) (env : String → Option String)
    (rawInput : String) (transport : HttpRequest → HttpResult)
    (azureTransport : AzureChatCall → Except String AzureResponse) :
    (∀ req ∈ (mainRun use_azure api_key env rawInput transport
          azureTransport).requests,
        getField req.body "messages"
          = some (Json.arr [systemMessage, userMessage (pyStrip rawInput)]))
    ∧ (∀ call ∈ (mainRun use_azure api_key env rawInput transport
          azureTransport).azureCalls,
        call.messages = [systemMessage, userMessage (pyStrip rawInput)]) := by
  constructor
  · intro req h
    obtain ⟨key, hk⟩ := mainRun_request_shape use_azure api_key env rawInput
      transport azureTransport req h
    rw [hk]
    rfl
  · intro call h
    exact (mkAzureCall_ok_spec env (pyStrip rawInput) call
      (mainRun_azure_shape use_azure api_key env rawInput transport
        azureTransport call h)).1

/-- Witness for C10: the request issued for the raw line `"  hi "`
carries the stripped message. -/
theorem sent_message_is_stripped_witness :
    getField (mkDirectRequest "k" (pyStrip "  hi ")).body "messages"
      = some (Json.arr [systemMessage, userMessage (pyStrip "  hi ")]) := by
  have hreq : (mainRun false (some "k") envFull "  hi " transportHello
      azureTransport0).requests = [mkDirectRequest "k" (pyStrip "  hi ")] := rfl
  refine (sent_message_is_stripped false (some "k") envFull "  hi "
    transportHello azureTransport0).1 (mkDirectRequest "k" (pyStrip "  hi ")) ?_
  rw [hreq]
  exact List.mem_singleton.mpr rfl
